import Mathlib

/-!
Shallow embedding of the c3dpw-quote-api quoting core
(`quote/utils/quote_engine.py`, `quote/views.py`, `quote/serializers.py`).

Numeric values are modelled as rationals (`ℚ`); Python's `round(x, n)`
(banker's rounding, ties to even) is modelled exactly by `rnd`.
Python `None` arguments are modelled by `Option`, and the truthiness
coercion `x or default` by the `orStr` / `orQ` / `orZ` helpers (falsy
values are `None`, the empty string, and numeric zero).
The trimesh mesh object is modelled abstractly by the `Mesh` record
(the fields the engine reads: emptiness flag, volume, area, extents,
face count); the best-effort cleanup pass is an arbitrary function
`cleaned : Mesh → Mesh`, since its failure is swallowed by the engine.
-/

namespace QuoteApi

/-- Round a rational to the nearest integer, ties to even
(the semantics of Python's builtin `round`). -/
def rhe (q : ℚ) : ℤ :=
  if q - (⌊q⌋ : ℚ) < 1/2 then ⌊q⌋
  else if 1/2 < q - (⌊q⌋ : ℚ) then ⌊q⌋ + 1
  else if 2 ∣ ⌊q⌋ then ⌊q⌋ else ⌊q⌋ + 1

/-- Python's `round(x, n)`: round to `n` decimal digits, ties to even. -/
def rnd (n : ℕ) (x : ℚ) : ℚ := (rhe ((10 : ℚ) ^ n * x) : ℚ) / (10 : ℚ) ^ n

/-- Association-list lookup with a default: Python's `dict.get(key, default)`. -/
def lookupD {α : Type} (l : List (String × α)) (k : String) (d : α) : α :=
  match l.find? (fun p => p.1 == k) with
  | some p => p.2
  | none => d

/-- `MATERIAL_RATES` — bulk rates in dollars per gram. -/
def MATERIAL_RATES : List (String × ℚ) :=
  [("PLA", 0.025), ("PLA+", 0.028), ("PETG", 0.030), ("Nylon", 0.060), ("CFNylon", 0.100)]

/-- `DENSITY_G_CM3` — densities in g/cm^3. -/
def DENSITY_G_CM3 : List (String × ℚ) :=
  [("PLA", 1.24), ("PLA+", 1.24), ("PETG", 1.27), ("Nylon", 1.15), ("CFNylon", 1.20)]

/-- A per-material preset: recommended layer height and relative speed. -/
structure MaterialPreset where
  rec_layer_mm : ℚ
  speed_factor : ℚ
  deriving DecidableEq

/-- `MATERIAL_PRESETS`. -/
def MATERIAL_PRESETS : List (String × MaterialPreset) :=
  [("PLA",     ⟨0.20, 1.00⟩),
   ("PLA+",    ⟨0.20, 0.95⟩),
   ("PETG",    ⟨0.24, 0.85⟩),
   ("Nylon",   ⟨0.24, 0.80⟩),
   ("CFNylon", ⟨0.28, 0.70⟩)]

/-- A printer profile: label, volumetric throughput (cm^3/hr), hourly rate. -/
structure MachineProfile where
  label : String
  cm3_per_hr : ℚ
  hourly_rate : ℚ
  deriving DecidableEq

/-- The `BLENDED` machine profile (the designated default). -/
def BLENDED : MachineProfile :=
  ⟨"Blended (FF 5M Pro + Kobra S1)", 46.0, 8.0⟩

/-- `MACHINE_PROFILES`. -/
def MACHINE_PROFILES : List (String × MachineProfile) :=
  [("BLENDED", BLENDED),
   ("FlashForge Adventurer 5M Pro", ⟨"FlashForge Adventurer 5M Pro", 50.0, 8.0⟩),
   ("Anycubic Kobra S1", ⟨"Anycubic Kobra S1", 42.0, 8.0⟩)]

/-- `DEFAULTS["material"]`. -/
def DEFAULT_MATERIAL : String := "PLA"
/-- `DEFAULTS["layer_height_mm"]`. -/
def DEFAULT_LAYER_MM : ℚ := 0.20
/-- `DEFAULTS["infill_pct"]`. -/
def DEFAULT_INFILL : ℤ := 20
/-- `DEFAULTS["machine"]`. -/
def DEFAULT_MACHINE : String := "BLENDED"

/-- `HOURLY_RATE_FALLBACK`. -/
def HOURLY_RATE_FALLBACK : ℚ := 8.0
/-- `BASE_FEE`. -/
def BASE_FEE : ℚ := 5.0
/-- `POSTPROCESS_FEE`. -/
def POSTPROCESS_FEE : ℚ := 0.0

/-- Python `x or default` for an optional string: `None` and `""` are falsy. -/
def orStr : Option String → String → String
  | none, d => d
  | some s, d => if s = "" then d else s

/-- Python `x or default` for an optional rational: `None` and `0` are falsy. -/
def orQ : Option ℚ → ℚ → ℚ
  | none, d => d
  | some x, d => if x = 0 then d else x

/-- Python `x or default` for an optional integer: `None` and `0` are falsy. -/
def orZ : Option ℤ → ℤ → ℤ
  | none, d => d
  | some x, d => if x = 0 then d else x

/-- The `layer_rel` computation of `_estimate_time_hours` (and of the debug
block): `0.20 / max(layer_mm, 0.10)` clamped into `[0.6, 1.5]`. -/
def layer_rel (layer_mm : ℚ) : ℚ :=
  max 0.6 (min (0.20 / max layer_mm 0.10) 1.5)

/-- The `infill_mult` computation of `_estimate_time_hours` (and of the debug
block): `1.0 + (infill_pct / 100.0) * 0.3`. -/
def infill_mult (infill_pct : ℤ) : ℚ :=
  1.0 + ((infill_pct : ℚ) / 100.0) * 0.3

/-- `_estimate_time_hours`: volumetric throughput model with layer and infill
scaling and a hard floor of 0.08 h. -/
def _estimate_time_hours (volume_cm3 layer_mm : ℚ) (infill_pct : ℤ)
    (machine_speed_cm3_hr : ℚ) (material_speed_factor : ℚ) : ℚ :=
  let effective_speed :=
    max (1/1000000) (machine_speed_cm3_hr * material_speed_factor / layer_rel layer_mm)
  let est := (volume_cm3 / effective_speed) * infill_mult infill_pct
  max 0.08 est

/-- `_price`: `round(BASE_FEE + grams * rate_per_g + time_hr * hourly_rate
+ POSTPROCESS_FEE, 2)`. -/
def _price (rate_per_g grams time_hr hourly_rate : ℚ) : ℚ :=
  rnd 2 (BASE_FEE + grams * rate_per_g + time_hr * hourly_rate + POSTPROCESS_FEE)

/-- The mesh attributes the engine reads from a loaded trimesh object.
`volume` is in mm^3, `area` in mm^2, `extents` in mm. -/
structure Mesh where
  is_empty : Bool
  volume : ℚ
  area : ℚ
  extents : List ℚ
  faces : ℕ
  deriving DecidableEq

/-- Per-material row of the `materials` snapshot in the result. -/
structure MaterialInfo where
  label : String
  rate_per_g : ℚ
  density_g_cm3 : ℚ
  rec_layer_mm : ℚ
  speed_factor : ℚ
  deriving DecidableEq

/-- The `materials` snapshot: one row per key of `MATERIAL_RATES`. -/
def materialsSnapshot : List (String × MaterialInfo) :=
  MATERIAL_RATES.map fun p =>
    (p.1,
     { label := p.1
       rate_per_g := p.2
       density_g_cm3 := lookupD DENSITY_G_CM3 p.1 0
       rec_layer_mm := (lookupD MATERIAL_PRESETS p.1 ⟨0, 0⟩).rec_layer_mm
       speed_factor := (lookupD MATERIAL_PRESETS p.1 ⟨0, 0⟩).speed_factor })

/-- The `pricing_model` block of the result. -/
structure PricingModel where
  base_fee : ℚ
  hourly_rate : ℚ
  postprocess_fee : ℚ
  machine_cm3_per_hr : ℚ
  machine_label : String
  machine_key : String
  deriving DecidableEq

/-- The dictionary returned by `run_quote_engine`.  The two `debug_*` fields
are the recomputed `debug.calc.layer_rel` and `debug.calc.infill_mult`
entries of the `debug` block. -/
structure QuoteResult where
  filename : String
  material : String
  layer_height_mm : ℚ
  infill_pct : ℤ
  volume_cm3 : ℚ
  surface_cm2 : ℚ
  bbox_mm : List ℚ
  triangles : ℕ
  est_material_g : ℚ
  est_print_time_hr : ℚ
  price_usd : ℚ
  materials : List (String × MaterialInfo)
  pricing_model : PricingModel
  debug_layer_rel : ℚ
  debug_infill_mult : ℚ
  deriving DecidableEq

/-- The two `ValueError`s the engine can raise itself. -/
inductive EngineError where
  | UnsupportedFormat
  | InvalidGeometry
  deriving DecidableEq

/-- Index of the last occurrence of `c` in `l`, Python's `str.rfind`
(`none` when absent). -/
def lastIndexOf (l : List Char) (c : Char) : Option ℕ :=
  match l.reverse.findIdx? (fun x => x == c) with
  | none => none
  | some i => some (l.length - 1 - i)

/-- The extension part of `os.path.splitext(name)` (posix rules): the suffix
from the last dot, provided the dot lies after the last slash and some
character strictly between them is not a dot. -/
def splitextExt (name : String) : String :=
  let cs := name.data
  match lastIndexOf cs '.' with
  | none => ""
  | some di =>
    let si : ℤ := match lastIndexOf cs '/' with
      | none => -1
      | some j => (j : ℤ)
    if (di : ℤ) ≤ si then ""
    else if (List.range di).any (fun k => decide (si < (k : ℤ)) && (cs.getD k '.' != '.')) then
      String.mk (cs.drop di)
    else ""

/-- ASCII lowercasing of a string, Python's `str.lower()` on the names the
API sees (character-by-character `Char.toLower`). -/
def lowerStr (s : String) : String :=
  String.mk (s.data.map Char.toLower)

/-- The engine's lowercased extension:
`os.path.splitext(name)[1].lower()`. -/
def engineExt (name : String) : String :=
  lowerStr (splitextExt name)

/-- `run_quote_engine`.  `loaded` is the mesh produced by `trimesh.load` on
the file's bytes, and `cleaned` is the outcome of the best-effort cleanup
pass (duplicate/degenerate-face removal, unreferenced-vertex removal,
validate/repair) — an arbitrary mesh transformation, since any exception in
it is swallowed.  Both the extension check and the emptiness check happen
before the cleanup pass and before any geometry is used. -/
def run_quote_engine (name : String) (loaded : Mesh) (cleaned : Mesh → Mesh)
    (material : Option String) (layer_height_mm : Option ℚ) (infill_pct : Option ℤ)
    (machine : Option String) : Except EngineError QuoteResult :=
  let material := orStr material DEFAULT_MATERIAL
  let layer_height_mm := orQ layer_height_mm DEFAULT_LAYER_MM
  let infill_pct := orZ infill_pct DEFAULT_INFILL
  let machine := orStr machine DEFAULT_MACHINE
  let mprof := lookupD MACHINE_PROFILES machine BLENDED
  let cm3_per_hr := mprof.cm3_per_hr
  let hourly_rate := mprof.hourly_rate
  let ext := engineExt name
  if ext ∉ [".stl", ".obj"] then
    .error .UnsupportedFormat
  else if loaded.is_empty then
    .error .InvalidGeometry
  else
    let mesh := cleaned loaded
    let volume_cm3 := mesh.volume / 1000
    let surface_cm2 := mesh.area / 100
    let bbox_mm := mesh.extents
    let triangles := mesh.faces
    let dens := lookupD DENSITY_G_CM3 material (lookupD DENSITY_G_CM3 "PLA" 0)
    let rate := lookupD MATERIAL_RATES material (lookupD MATERIAL_RATES "PLA" 0)
    let mat_preset := lookupD MATERIAL_PRESETS material (lookupD MATERIAL_PRESETS "PLA" ⟨0, 0⟩)
    let est_g := volume_cm3 * dens
    let est_time :=
      _estimate_time_hours volume_cm3 layer_height_mm infill_pct cm3_per_hr mat_preset.speed_factor
    let price := _price rate est_g est_time hourly_rate
    .ok
      { filename := name
        material := material
        layer_height_mm := rnd 3 layer_height_mm
        infill_pct := infill_pct
        volume_cm3 := rnd 2 volume_cm3
        surface_cm2 := rnd 2 surface_cm2
        bbox_mm := bbox_mm.map (rnd 2)
        triangles := triangles
        est_material_g := rnd 1 est_g
        est_print_time_hr := rnd 2 est_time
        price_usd := price
        materials := materialsSnapshot
        pricing_model :=
          { base_fee := BASE_FEE
            hourly_rate := hourly_rate
            postprocess_fee := POSTPROCESS_FEE
            machine_cm3_per_hr := cm3_per_hr
            machine_label := mprof.label
            machine_key := machine }
        debug_layer_rel := layer_rel layer_height_mm
        debug_infill_mult := infill_mult infill_pct }

/-- The record `run_quote_engine` returns when both guards pass (the
extension is allowed and the loaded mesh is non-empty), written out as a
function of the inputs.  This is the engine's success branch verbatim. -/
def okResult (name : String) (loaded : Mesh) (cleaned : Mesh → Mesh)
    (material : Option String) (layer_height_mm : Option ℚ) (infill_pct : Option ℤ)
    (machine : Option String) : QuoteResult :=
  let material := orStr material DEFAULT_MATERIAL
  let layer_height_mm := orQ layer_height_mm DEFAULT_LAYER_MM
  let infill_pct := orZ infill_pct DEFAULT_INFILL
  let machine := orStr machine DEFAULT_MACHINE
  let mprof := lookupD MACHINE_PROFILES machine BLENDED
  let cm3_per_hr := mprof.cm3_per_hr
  let hourly_rate := mprof.hourly_rate
  let mesh := cleaned loaded
  let volume_cm3 := mesh.volume / 1000
  let surface_cm2 := mesh.area / 100
  let bbox_mm := mesh.extents
  let triangles := mesh.faces
  let dens := lookupD DENSITY_G_CM3 material (lookupD DENSITY_G_CM3 "PLA" 0)
  let rate := lookupD MATERIAL_RATES material (lookupD MATERIAL_RATES "PLA" 0)
  let mat_preset := lookupD MATERIAL_PRESETS material (lookupD MATERIAL_PRESETS "PLA" ⟨0, 0⟩)
  let est_g := volume_cm3 * dens
  let est_time :=
    _estimate_time_hours volume_cm3 layer_height_mm infill_pct cm3_per_hr mat_preset.speed_factor
  let price := _price rate est_g est_time hourly_rate
  { filename := name
    material := material
    layer_height_mm := rnd 3 layer_height_mm
    infill_pct := infill_pct
    volume_cm3 := rnd 2 volume_cm3
    surface_cm2 := rnd 2 surface_cm2
    bbox_mm := bbox_mm.map (rnd 2)
    triangles := triangles
    est_material_g := rnd 1 est_g
    est_print_time_hr := rnd 2 est_time
    price_usd := price
    materials := materialsSnapshot
    pricing_model :=
      { base_fee := BASE_FEE
        hourly_rate := hourly_rate
        postprocess_fee := POSTPROCESS_FEE
        machine_cm3_per_hr := cm3_per_hr
        machine_label := mprof.label
        machine_key := machine }
    debug_layer_rel := layer_rel layer_height_mm
    debug_infill_mult := infill_mult infill_pct }

/-- `ALLOWED_EXTS` of the upload serializer. -/
def ALLOWED_EXTS : List String := ["stl", "obj"]

/-- `MAX_FILE_MB` of the upload serializer. -/
def MAX_FILE_MB : ℕ := 50

/-- The serializer's extension: `name.rsplit(".", 1)[-1].lower()` when the
name contains a dot, `""` otherwise. -/
def serializerExt (name : String) : String :=
  match lastIndexOf name.data '.' with
  | none => ""
  | some di => lowerStr (String.mk (name.data.drop (di + 1)))

/-- `QuoteUploadSerializer.validate_file` as a predicate: accepts iff the
extension is in `ALLOWED_EXTS` and a truthy size does not exceed the cap
(the content-type check in the source is a no-op). -/
def validate_file (name : String) (size : Option ℕ) : Bool :=
  if serializerExt name ∉ ALLOWED_EXTS then false
  else
    match size with
    | none => true
    | some n => if n ≠ 0 ∧ n > MAX_FILE_MB * 1024 * 1024 then false else true

/-- The serializer's range check on `infill_pct`
(`min_value=0, max_value=100`). -/
def infillInRange (n : ℤ) : Bool := 0 ≤ n ∧ n ≤ 100

/-- One row of the batch tier table built by `BatchQuoteAPIView.post`. -/
structure TierRow where
  qty : ℤ
  discount : ℚ
  per_unit : ℚ
  total : ℚ
  deriving DecidableEq

/-- The row-building loop of `BatchQuoteAPIView.post`:
`for qty, disc in zip(tiers, discounts)` with
`per_unit = round(base_unit * (1 - disc), 2)` and
`total = round(per_unit * qty, 2)`. -/
def batch_rows (base_unit : ℚ) (tiers : List ℤ) (discounts : List ℚ) : List TierRow :=
  (tiers.zip discounts).map fun p =>
    let per_unit := rnd 2 (base_unit * (1 - p.2))
    { qty := p.1, discount := p.2, per_unit := per_unit, total := rnd 2 (per_unit * (p.1 : ℚ)) }

/-- `_tiers_from_env`, applied to the already-parsed tier and discount lists:
on a length mismatch the discounts are replaced by zeros of the tiers'
length. -/
def tiers_from_env (tiers : List ℤ) (discounts : List ℚ) : List ℤ × List ℚ :=
  if discounts.length ≠ tiers.length then (tiers, List.replicate tiers.length 0)
  else (tiers, discounts)

/-- Default `BATCH_TIERS` env value, parsed. -/
def BATCH_TIERS_DEFAULT : List ℤ := [1, 10, 25, 50, 100]

/-- Default `DISCOUNTS` env value, parsed. -/
def DISCOUNTS_DEFAULT : List ℚ := [0, 0.05, 0.08, 0.12, 0.15]

/-- The `price_usd` field of an engine outcome (0 on error); used to state
closed sanity facts about concrete runs. -/
def priceOf : Except EngineError QuoteResult → ℚ
  | .ok r => r.price_usd
  | .error _ => 0

/-- The `est_print_time_hr` field of an engine outcome (0 on error). -/
def timeOf : Except EngineError QuoteResult → ℚ
  | .ok r => r.est_print_time_hr
  | .error _ => 0

/-- The `est_material_g` field of an engine outcome (0 on error). -/
def massOf : Except EngineError QuoteResult → ℚ
  | .ok r => r.est_material_g
  | .error _ => 0

/-- The `debug.calc.infill_mult` field of an engine outcome (0 on error). -/
def infillMultOf : Except EngineError QuoteResult → ℚ
  | .ok r => r.debug_infill_mult
  | .error _ => 0

/-- A small concrete watertight mesh: a 10 mm cube (volume 1000 mm^3,
area 600 mm^2, 12 triangles). -/
def cubeMesh : Mesh :=
  { is_empty := false, volume := 1000, area := 600, extents := [10, 10, 10], faces := 12 }

/-- A loaded-but-degenerate mesh: non-empty (it has one face) with zero
enclosed volume — what `trimesh.load` reports for a single degenerate
triangle. -/
def degenerateMesh : Mesh :=
  { is_empty := false, volume := 0, area := 0, extents := [1, 1, 0], faces := 1 }

/-- An inverted (inside-out) mesh: `trimesh` reports a negative signed
volume for consistently inward-facing normals; the engine has no guard
against it. -/
def invertedMesh : Mesh :=
  { is_empty := false, volume := -1000000, area := 60000, extents := [100, 100, 100], faces := 12 }

/-- A mesh that loaded empty (no faces or vertices survived parsing). -/
def emptyMesh : Mesh :=
  { is_empty := true, volume := 0, area := 0, extents := [], faces := 0 }

end QuoteApi

namespace QuoteApi

lemma floor_le_rhe (q : ℚ) : ⌊q⌋ ≤ rhe q := by
  unfold rhe
  split_ifs <;> omega

lemma int_le_rhe (n : ℤ) (q : ℚ) (h : (n : ℚ) ≤ q) : n ≤ rhe q :=
  le_trans (Int.le_floor.mpr h) (floor_le_rhe q)

lemma div_le_rnd (n : ℕ) (k : ℤ) (x : ℚ) (h : (k : ℚ) ≤ 10 ^ n * x) :
    (k : ℚ) / 10 ^ n ≤ rnd n x := by
  unfold rnd
  have h1 : (k : ℤ) ≤ rhe (10 ^ n * x) := int_le_rhe _ _ h
  have h2 : (0 : ℚ) < 10 ^ n := by positivity
  exact (div_le_div_iff_of_pos_right h2).mpr (by exact_mod_cast h1)

lemma rnd_eq (n : ℕ) (k : ℤ) (x : ℚ) (h1 : (k : ℚ) ≤ 10 ^ n * x)
    (h2 : 10 ^ n * x - (k : ℚ) < 1/2) : rnd n x = (k : ℚ) / 10 ^ n := by
  have hf : ⌊10 ^ n * x⌋ = k := Int.floor_eq_iff.mpr ⟨h1, by linarith⟩
  unfold rnd rhe
  rw [hf, if_pos (by exact_mod_cast h2)]

lemma rnd_eq_gt (n : ℕ) (k : ℤ) (x : ℚ) (h1 : 1/2 < 10 ^ n * x - (k : ℚ))
    (h2 : 10 ^ n * x < (k : ℚ) + 1) : rnd n x = ((k : ℚ) + 1) / 10 ^ n := by
  have hf : ⌊10 ^ n * x⌋ = k := Int.floor_eq_iff.mpr ⟨by linarith, by exact_mod_cast h2⟩
  unfold rnd rhe
  rw [hf, if_neg (not_lt.mpr (le_of_lt h1)), if_pos h1]
  push_cast
  ring

lemma lookupD_eq_or_mem {α : Type} (l : List (String × α)) (k : String) (d : α) :
    lookupD l k d = d ∨ ∃ p, p ∈ l ∧ lookupD l k d = p.2 := by
  unfold lookupD
  cases h : l.find? (fun p => p.1 == k) with
  | none => exact Or.inl rfl
  | some p => exact Or.inr ⟨p, List.mem_of_find?_eq_some h, rfl⟩

lemma lookupD_eq_default {α : Type} (l : List (String × α)) (k : String) (d : α)
    (h : ∀ p ∈ l, p.1 ≠ k) : lookupD l k d = d := by
  unfold lookupD
  rw [List.find?_eq_none.mpr (by intro p hp; simpa using h p hp)]

lemma lookupD_nonneg (l : List (String × ℚ)) (hl : ∀ p ∈ l, 0 ≤ p.2) (k : String) (d : ℚ)
    (hd : 0 ≤ d) : 0 ≤ lookupD l k d := by
  rcases lookupD_eq_or_mem l k d with h | ⟨p, hp, h⟩
  · rw [h]; exact hd
  · rw [h]; exact hl p hp

lemma rates_nonneg : ∀ p ∈ MATERIAL_RATES, (0 : ℚ) ≤ p.2 := by
  intro p hp
  simp [MATERIAL_RATES] at hp
  rcases hp with rfl | rfl | rfl | rfl | rfl <;> norm_num

lemma densities_nonneg : ∀ p ∈ DENSITY_G_CM3, (0 : ℚ) ≤ p.2 := by
  intro p hp
  simp [DENSITY_G_CM3] at hp
  rcases hp with rfl | rfl | rfl | rfl | rfl <;> norm_num

lemma hourly_nonneg (k : String) : 0 ≤ (lookupD MACHINE_PROFILES k BLENDED).hourly_rate := by
  rcases lookupD_eq_or_mem MACHINE_PROFILES k BLENDED with h | ⟨p, hp, h⟩
  · rw [h]; norm_num [BLENDED]
  · rw [h]
    simp [MACHINE_PROFILES] at hp
    rcases hp with rfl | rfl | rfl <;> norm_num [BLENDED]

lemma time_floor (v l : ℚ) (i : ℤ) (ms sf : ℚ) :
    (0.08 : ℚ) ≤ _estimate_time_hours v l i ms sf := by
  simp only [_estimate_time_hours]
  exact le_max_left _ _

theorem run_ok (name : String) (loaded : Mesh) (cleaned : Mesh → Mesh)
    (material : Option String) (layer : Option ℚ) (infill : Option ℤ) (machine : Option String)
    (h1 : engineExt name ∈ [".stl", ".obj"]) (h2 : loaded.is_empty = false) :
    run_quote_engine name loaded cleaned material layer infill machine =
      .ok (okResult name loaded cleaned material layer infill machine) := by
  simp only [run_quote_engine, okResult]
  rw [if_neg (not_not_intro h1), if_neg (by simp [h2])]

theorem run_unsupported (name : String) (loaded : Mesh) (cleaned : Mesh → Mesh)
    (material : Option String) (layer : Option ℚ) (infill : Option ℤ) (machine : Option String)
    (h1 : engineExt name ∉ [".stl", ".obj"]) :
    run_quote_engine name loaded cleaned material layer infill machine =
      .error .UnsupportedFormat := by
  simp only [run_quote_engine]
  rw [if_pos h1]

theorem run_empty (name : String) (loaded : Mesh) (cleaned : Mesh → Mesh)
    (material : Option String) (layer : Option ℚ) (infill : Option ℤ) (machine : Option String)
    (h1 : engineExt name ∈ [".stl", ".obj"]) (h2 : loaded.is_empty = true) :
    run_quote_engine name loaded cleaned material layer infill machine =
      .error .InvalidGeometry := by
  simp only [run_quote_engine]
  rw [if_neg (not_not_intro h1), if_pos h2]

theorem ok_elim {name : String} {loaded : Mesh} {cleaned : Mesh → Mesh}
    {material : Option String} {layer : Option ℚ} {infill : Option ℤ} {machine : Option String}
    {r : QuoteResult}
    (h : run_quote_engine name loaded cleaned material layer infill machine = .ok r) :
    engineExt name ∈ [".stl", ".obj"] ∧ loaded.is_empty = false ∧
      r = okResult name loaded cleaned material layer infill machine := by
  by_cases h1 : engineExt name ∈ [".stl", ".obj"]
  · cases h2 : loaded.is_empty with
    | false =>
      rw [run_ok _ _ _ _ _ _ _ h1 h2] at h
      refine ⟨h1, rfl, ?_⟩
      injection h with h
      exact h.symm
    | true =>
      rw [run_empty _ _ _ _ _ _ _ h1 h2] at h
      cases h
  · rw [run_unsupported _ _ _ _ _ _ _ h1] at h
    cases h

/-- C1: for every mesh and parameter set the engine accepts, the returned
`price_usd` equals `round(base_fee + mass_g * material_rate_per_g + time_hr *
machine_hourly_rate + postprocess_fee, 2)`, where `base_fee = 5.0`,
`postprocess_fee = 0.0`, `mass_g` is the computed estimated mass, `time_hr`
the computed estimated time, and the rates come from the resolved material
and machine profiles. -/
theorem C1_price_formula (name : String) (loaded : Mesh) (cleaned : Mesh → Mesh)
    (material : Option String) (lay : Option ℚ) (inf : Option ℤ) (mach : Option String)
    (r : QuoteResult)
    (h : run_quote_engine name loaded cleaned material lay inf mach = .ok r) :
    BASE_FEE = 5.0 ∧ POSTPROCESS_FEE = 0.0 ∧
    r.price_usd =
      rnd 2 (BASE_FEE
        + ((cleaned loaded).volume / 1000
            * lookupD DENSITY_G_CM3 (orStr material DEFAULT_MATERIAL)
                (lookupD DENSITY_G_CM3 "PLA" 0))
          * lookupD MATERIAL_RATES (orStr material DEFAULT_MATERIAL)
              (lookupD MATERIAL_RATES "PLA" 0)
        + _estimate_time_hours ((cleaned loaded).volume / 1000) (orQ lay DEFAULT_LAYER_MM)
            (orZ inf DEFAULT_INFILL)
            (lookupD MACHINE_PROFILES (orStr mach DEFAULT_MACHINE) BLENDED).cm3_per_hr
            (lookupD MATERIAL_PRESETS (orStr material DEFAULT_MATERIAL)
              (lookupD MATERIAL_PRESETS "PLA" ⟨0, 0⟩)).speed_factor
          * (lookupD MACHINE_PROFILES (orStr mach DEFAULT_MACHINE) BLENDED).hourly_rate
        + POSTPROCESS_FEE) := by
  obtain ⟨h1, h2, rfl⟩ := ok_elim h
  exact ⟨rfl, rfl, rfl⟩

/-- C1 witness: the price formula instantiated on a concrete 10 mm cube
quoted with all-default parameters. -/
theorem C1_price_formula_witness :
    BASE_FEE = 5.0 ∧ POSTPROCESS_FEE = 0.0 ∧
    (okResult "part.stl" cubeMesh id none none none none).price_usd =
      rnd 2 (BASE_FEE
        + ((id cubeMesh).volume / 1000
            * lookupD DENSITY_G_CM3 (orStr none DEFAULT_MATERIAL)
                (lookupD DENSITY_G_CM3 "PLA" 0))
          * lookupD MATERIAL_RATES (orStr none DEFAULT_MATERIAL)
              (lookupD MATERIAL_RATES "PLA" 0)
        + _estimate_time_hours ((id cubeMesh).volume / 1000) (orQ none DEFAULT_LAYER_MM)
            (orZ none DEFAULT_INFILL)
            (lookupD MACHINE_PROFILES (orStr none DEFAULT_MACHINE) BLENDED).cm3_per_hr
            (lookupD MATERIAL_PRESETS (orStr none DEFAULT_MATERIAL)
              (lookupD MATERIAL_PRESETS "PLA" ⟨0, 0⟩)).speed_factor
          * (lookupD MACHINE_PROFILES (orStr none DEFAULT_MACHINE) BLENDED).hourly_rate
        + POSTPROCESS_FEE) := by
  have hok := run_ok "part.stl" cubeMesh id none none none none (by decide) rfl
  exact C1_price_formula "part.stl" cubeMesh id none none none none _ hok

/-- C8: `layer_rel = clamp(0.20 / max(layer_height_mm, 0.10), 0.6, 1.5)` is
monotonically non-increasing in the layer height, always lies in
`[0.6, 1.5]`, equals the upper clamp bound 1.5 at layer height 0.05 and the
lower clamp bound 0.6 at layer height 0.6. -/
theorem C8_layer_rel_clamp :
    (∀ a b : ℚ, a ≤ b → layer_rel b ≤ layer_rel a) ∧
    (∀ x : ℚ, 0.6 ≤ layer_rel x ∧ layer_rel x ≤ 1.5) ∧
    layer_rel 0.05 = 1.5 ∧ layer_rel 0.6 = 0.6 := by
  refine ⟨?_, ?_, ?_, ?_⟩
  · intro a b hab
    unfold layer_rel
    have h1 : (0 : ℚ) < max a 0.10 := lt_max_of_lt_right (by norm_num)
    have h2 : max a 0.10 ≤ max b 0.10 := max_le_max hab le_rfl
    have h3 : (0.20 : ℚ) / max b 0.10 ≤ 0.20 / max a 0.10 := by gcongr
    exact max_le_max le_rfl (min_le_min h3 le_rfl)
  · intro x
    unfold layer_rel
    exact ⟨le_max_left _ _, max_le (by norm_num) (min_le_right _ _)⟩
  · norm_num [layer_rel]
  · norm_num [layer_rel]

/-- C8 witness: monotonicity applied at the concrete layer heights 0.2 and
0.3 mm. -/
theorem C8_layer_rel_clamp_witness :
    (0.2 : ℚ) ≤ 0.3 ∧ layer_rel 0.3 ≤ layer_rel 0.2 :=
  ⟨by norm_num, C8_layer_rel_clamp.1 0.2 0.3 (by norm_num)⟩

/-- C10: the engine substitutes its defaults for falsy argument values, not
only for absent ones — infill 0 behaves exactly like infill 20, the empty
string behaves like PLA for the material and like BLENDED for the machine,
even though 0 is an in-range infill value at the public interface. -/
theorem C10_falsy_defaults :
    (∀ (name : String) (loaded : Mesh) (cleaned : Mesh → Mesh) (mat : Option String)
        (lay : Option ℚ) (mach : Option String),
      run_quote_engine name loaded cleaned mat lay (some 0) mach =
        run_quote_engine name loaded cleaned mat lay (some 20) mach) ∧
    (∀ (name : String) (loaded : Mesh) (cleaned : Mesh → Mesh) (lay : Option ℚ)
        (inf : Option ℤ) (mach : Option String),
      run_quote_engine name loaded cleaned (some "") lay inf mach =
        run_quote_engine name loaded cleaned (some "PLA") lay inf mach) ∧
    (∀ (name : String) (loaded : Mesh) (cleaned : Mesh → Mesh) (mat : Option String)
        (lay : Option ℚ) (inf : Option ℤ),
      run_quote_engine name loaded cleaned mat lay inf (some "") =
        run_quote_engine name loaded cleaned mat lay inf (some "BLENDED")) ∧
    infillInRange 0 = true :=
  ⟨fun _ _ _ _ _ _ => rfl, fun _ _ _ _ _ _ => rfl, fun _ _ _ _ _ _ => rfl, rfl⟩

/-- C7: when the tier quantity list and the discount list have different
lengths, the discounts are replaced wholesale with zeros of the tiers'
length (and every row then built carries discount 0); when the lengths
match, the given discounts are used unchanged. -/
theorem C7_tier_length_mismatch :
    (∀ (ts : List ℤ) (ds : List ℚ),
      tiers_from_env ts ds =
        if ds.length = ts.length then (ts, ds) else (ts, List.replicate ts.length 0)) ∧
    (∀ (b : ℚ) (ts : List ℤ),
      (batch_rows b ts (List.replicate ts.length 0)).all (fun r => r.discount == 0) = true) := by
  constructor
  · intro ts ds
    by_cases h : ds.length = ts.length <;> simp [tiers_from_env, h]
  · intro b ts
    induction ts with
    | nil => rfl
    | cons t ts ih => simpa [batch_rows, List.replicate] using ih

/-- C6: the batch tier calculator maps each (quantity, discount) pair, in
parallel order, to a row with `per_unit = round(base_unit_price * (1 -
discount), 2)` and `total = round(per_unit * quantity, 2)`; with base unit
price 10.00 and the default tiers and discounts it produces per-unit prices
[10.00, 9.50, 9.20, 8.80, 8.50] and totals [10.00, 95.00, 230.00, 440.00,
850.00], preserving tier order. -/
theorem C6_batch_tier_rows :
    (∀ (b : ℚ) (ts : List ℤ) (ds : List ℚ),
      batch_rows b ts ds = List.zipWith (fun q d =>
        { qty := q, discount := d, per_unit := rnd 2 (b * (1 - d)),
          total := rnd 2 (rnd 2 (b * (1 - d)) * (q : ℚ)) : TierRow }) ts ds) ∧
    batch_rows 10 BATCH_TIERS_DEFAULT DISCOUNTS_DEFAULT =
      [⟨1, 0, 10, 10⟩, ⟨10, 0.05, 9.5, 95⟩, ⟨25, 0.08, 9.2, 230⟩,
       ⟨50, 0.12, 8.8, 440⟩, ⟨100, 0.15, 8.5, 850⟩] := by
  constructor
  · intro b ts ds
    induction ts generalizing ds with
    | nil => simp [batch_rows]
    | cons t ts ih =>
      cases ds with
      | nil => simp [batch_rows]
      | cons d ds => simpa [batch_rows] using ih ds
  · have e1 : rnd 2 ((10 : ℚ) * (1 - 0)) = 10 := by
      rw [rnd_eq 2 1000 _ (by norm_num) (by norm_num)]; norm_num
    have e2 : rnd 2 ((10 : ℚ) * (1 - 0.05)) = 9.5 := by
      rw [rnd_eq 2 950 _ (by norm_num) (by norm_num)]; norm_num
    have e3 : rnd 2 ((10 : ℚ) * (1 - 0.08)) = 9.2 := by
      rw [rnd_eq 2 920 _ (by norm_num) (by norm_num)]; norm_num
    have e4 : rnd 2 ((10 : ℚ) * (1 - 0.12)) = 8.8 := by
      rw [rnd_eq 2 880 _ (by norm_num) (by norm_num)]; norm_num
    have e5 : rnd 2 ((10 : ℚ) * (1 - 0.15)) = 8.5 := by
      rw [rnd_eq 2 850 _ (by norm_num) (by norm_num)]; norm_num
    have t1 : rnd 2 ((10 : ℚ) * ((1 : ℤ) : ℚ)) = 10 := by
      rw [rnd_eq 2 1000 _ (by norm_num) (by norm_num)]; norm_num
    have t2 : rnd 2 ((9.5 : ℚ) * ((10 : ℤ) : ℚ)) = 95 := by
      rw [rnd_eq 2 9500 _ (by norm_num) (by norm_num)]; norm_num
    have t3 : rnd 2 ((9.2 : ℚ) * ((25 : ℤ) : ℚ)) = 230 := by
      rw [rnd_eq 2 23000 _ (by norm_num) (by norm_num)]; norm_num
    have t4 : rnd 2 ((8.8 : ℚ) * ((50 : ℤ) : ℚ)) = 440 := by
      rw [rnd_eq 2 44000 _ (by norm_num) (by norm_num)]; norm_num
    have t5 : rnd 2 ((8.5 : ℚ) * ((100 : ℤ) : ℚ)) = 850 := by
      rw [rnd_eq 2 85000 _ (by norm_num) (by norm_num)]; norm_num
    simp only [batch_rows, BATCH_TIERS_DEFAULT, DISCOUNTS_DEFAULT, List.zip_cons_cons,
      List.zip_nil_right, List.map_cons, List.map_nil, e1, e2, e3, e4, e5, t1, t2, t3, t4, t5]

/-- C2 counterexample: the claim asserts non-negative mass and
`price_usd ≥ base_fee` for every accepted mesh, but the engine accepts an
inverted mesh whose signed volume is negative and then returns a negative
estimated mass and a price below the base fee. -/
theorem C2_negative_volume_counterexample :
    run_quote_engine "part.stl" invertedMesh id none none none none =
      .ok (okResult "part.stl" invertedMesh id none none none none) ∧
    massOf (run_quote_engine "part.stl" invertedMesh id none none none none) < 0 ∧
    priceOf (run_quote_engine "part.stl" invertedMesh id none none none none) < BASE_FEE := by
  have hok := run_ok "part.stl" invertedMesh id none none none none (by decide) rfl
  refine ⟨hok, ?_⟩
  rw [hok]
  simp only [massOf, priceOf, okResult, invertedMesh, _price, _estimate_time_hours,
    layer_rel, infill_mult, orStr, orQ, orZ, lookupD, MACHINE_PROFILES, DENSITY_G_CM3,
    MATERIAL_RATES, MATERIAL_PRESETS, BLENDED, DEFAULT_MATERIAL, DEFAULT_LAYER_MM,
    DEFAULT_INFILL, DEFAULT_MACHINE, BASE_FEE, POSTPROCESS_FEE, List.find?]
  norm_num
  constructor
  · rw [rnd_eq 1 (-12400) _ (by norm_num) (by norm_num)]; norm_num
  · rw [rnd_eq 2 (-2536) _ (by norm_num) (by norm_num)]; norm_num

/-- C2 (amended): for every accepted mesh the rounded estimated time is at
least the 0.08 h floor unconditionally, and — provided the mesh volume the
engine computes after cleanup is non-negative — the estimated mass, time and
price are non-negative and the price is at least the base fee. -/
theorem C2_nonneg_invariants (name : String) (loaded : Mesh) (cleaned : Mesh → Mesh)
    (material : Option String) (lay : Option ℚ) (inf : Option ℤ) (mach : Option String)
    (r : QuoteResult)
    (h : run_quote_engine name loaded cleaned material lay inf mach = .ok r) :
    0.08 ≤ r.est_print_time_hr ∧
    (0 ≤ (cleaned loaded).volume →
      0 ≤ r.est_material_g ∧ 0 ≤ r.est_print_time_hr ∧
      BASE_FEE ≤ r.price_usd ∧ 0 ≤ r.price_usd) := by
  obtain ⟨h1, h2, rfl⟩ := ok_elim h
  simp only [okResult, _price]
  set dens := lookupD DENSITY_G_CM3 (orStr material DEFAULT_MATERIAL)
    (lookupD DENSITY_G_CM3 "PLA" 0) with hdens_def
  set rate := lookupD MATERIAL_RATES (orStr material DEFAULT_MATERIAL)
    (lookupD MATERIAL_RATES "PLA" 0) with hrate_def
  set hr := (lookupD MACHINE_PROFILES (orStr mach DEFAULT_MACHINE) BLENDED).hourly_rate
    with hhr_def
  set t := _estimate_time_hours ((cleaned loaded).volume / 1000) (orQ lay DEFAULT_LAYER_MM)
    (orZ inf DEFAULT_INFILL)
    (lookupD MACHINE_PROFILES (orStr mach DEFAULT_MACHINE) BLENDED).cm3_per_hr
    (lookupD MATERIAL_PRESETS (orStr material DEFAULT_MATERIAL)
      (lookupD MATERIAL_PRESETS "PLA" ⟨0, 0⟩)).speed_factor with ht_def
  have htime : (0.08 : ℚ) ≤ t := by rw [ht_def]; exact time_floor _ _ _ _ _
  have htf : (0.08 : ℚ) ≤ rnd 2 t := by
    have hd := div_le_rnd 2 8 t (by push_cast; linarith)
    calc (0.08 : ℚ) = ((8 : ℤ) : ℚ) / 10 ^ 2 := by norm_num
    _ ≤ _ := hd
  refine ⟨htf, fun hv => ?_⟩
  have hdens0 : 0 ≤ dens := by
    rw [hdens_def]
    exact lookupD_nonneg _ densities_nonneg _ _ (lookupD_nonneg _ densities_nonneg _ _ le_rfl)
  have hrate0 : 0 ≤ rate := by
    rw [hrate_def]
    exact lookupD_nonneg _ rates_nonneg _ _ (lookupD_nonneg _ rates_nonneg _ _ le_rfl)
  have hhr0 : 0 ≤ hr := by rw [hhr_def]; exact hourly_nonneg _
  have hg : 0 ≤ (cleaned loaded).volume / 1000 * dens :=
    mul_nonneg (div_nonneg hv (by norm_num)) hdens0
  have hmassf : (0 : ℚ) ≤ rnd 1 ((cleaned loaded).volume / 1000 * dens) := by
    have hd := div_le_rnd 1 0 ((cleaned loaded).volume / 1000 * dens) (by push_cast; nlinarith)
    simpa using hd
  have hGR : 0 ≤ (cleaned loaded).volume / 1000 * dens * rate := mul_nonneg hg hrate0
  have hET : (0 : ℚ) ≤ t * hr := mul_nonneg (le_trans (by norm_num) htime) hhr0
  have hpricef : BASE_FEE ≤
      rnd 2 (BASE_FEE + (cleaned loaded).volume / 1000 * dens * rate + t * hr
        + POSTPROCESS_FEE) := by
    have hd := div_le_rnd 2 500
      (BASE_FEE + (cleaned loaded).volume / 1000 * dens * rate + t * hr + POSTPROCESS_FEE)
      (by push_cast; norm_num [BASE_FEE, POSTPROCESS_FEE]; nlinarith)
    calc BASE_FEE = ((500 : ℤ) : ℚ) / 10 ^ 2 := by norm_num [BASE_FEE]
    _ ≤ _ := hd
  exact ⟨hmassf, le_trans (by norm_num) htf, hpricef,
    le_trans (by norm_num [BASE_FEE]) hpricef⟩

/-- C2 witness: the amended invariants instantiated on the concrete 10 mm
cube quoted with all-default parameters. -/
theorem C2_nonneg_invariants_witness :
    (0.08 : ℚ) ≤ (okResult "part.stl" cubeMesh id none none none none).est_print_time_hr ∧
    0 ≤ (okResult "part.stl" cubeMesh id none none none none).est_material_g ∧
    BASE_FEE ≤ (okResult "part.stl" cubeMesh id none none none none).price_usd := by
  have hok := run_ok "part.stl" cubeMesh id none none none none (by decide) rfl
  have h := C2_nonneg_invariants "part.stl" cubeMesh id none none none none _ hok
  have hv : (0 : ℚ) ≤ (id cubeMesh).volume := by norm_num [id_eq, cubeMesh]
  exact ⟨h.1, (h.2 hv).1, (h.2 hv).2.2.1⟩

/-- C3 counterexample: the claim asserts `infill_mult = 1.0` whenever the
request's `infill_pct` is 0, but an engine call with infill 0 substitutes
the default 20 (0 is falsy) and computes `infill_mult = 1.06`. -/
theorem C3_infill_zero_counterexample :
    infillMultOf (run_quote_engine "part.stl" cubeMesh id none none (some 0) none) = 1.06 ∧
    (1.06 : ℚ) ≠ 1.0 := by
  have hok := run_ok "part.stl" cubeMesh id none none (some 0) none (by decide) rfl
  rw [hok]
  constructor
  · norm_num [infillMultOf, okResult, infill_mult, orZ, DEFAULT_INFILL]
  · norm_num

/-- C3 (amended): the formula `infill_mult = 1.0 + (infill_pct / 100.0) *
0.3` is exactly 1.0 at 0 and exactly 1.3 at 100, and every engine call with
a nonzero in-range `infill_pct` computes it at that value — in particular
exactly 1.3 at 100; a call with `infill_pct = 0` instead substitutes the
default 20 and computes 1.06. -/
theorem C3_infill_mult_amended :
    infill_mult 0 = 1.0 ∧ infill_mult 100 = 1.3 ∧
    (∀ (n : ℤ), n ≠ 0 →
      ∀ (name : String) (loaded : Mesh) (cleaned : Mesh → Mesh) (mat : Option String)
        (lay : Option ℚ) (mach : Option String) (r : QuoteResult),
        run_quote_engine name loaded cleaned mat lay (some n) mach = .ok r →
          r.debug_infill_mult = 1.0 + ((n : ℚ) / 100.0) * 0.3) ∧
    (∀ (name : String) (loaded : Mesh) (cleaned : Mesh → Mesh) (mat : Option String)
        (lay : Option ℚ) (mach : Option String) (r : QuoteResult),
      run_quote_engine name loaded cleaned mat lay (some 100) mach = .ok r →
        r.debug_infill_mult = 1.3) ∧
    (∀ (name : String) (loaded : Mesh) (cleaned : Mesh → Mesh) (mat : Option String)
        (lay : Option ℚ) (mach : Option String) (r : QuoteResult),
      run_quote_engine name loaded cleaned mat lay (some 0) mach = .ok r →
        r.debug_infill_mult = 1.06) := by
  refine ⟨by norm_num [infill_mult], by norm_num [infill_mult], ?_, ?_, ?_⟩
  · intro n hn name loaded cleaned mat lay mach r h
    obtain ⟨h1, h2, rfl⟩ := ok_elim h
    simp only [okResult, orZ, if_neg hn, infill_mult]
  · intro name loaded cleaned mat lay mach r h
    obtain ⟨h1, h2, rfl⟩ := ok_elim h
    norm_num [okResult, orZ, infill_mult]
  · intro name loaded cleaned mat lay mach r h
    obtain ⟨h1, h2, rfl⟩ := ok_elim h
    norm_num [okResult, orZ, infill_mult, DEFAULT_INFILL]

/-- C3 witness: an engine call with infill 100 computes the multiplier
exactly 1.3. -/
theorem C3_infill_mult_amended_witness :
    (okResult "part.stl" cubeMesh id none none (some 100) none).debug_infill_mult = 1.3 := by
  have hok := run_ok "part.stl" cubeMesh id none none (some 100) none (by decide) rfl
  exact C3_infill_mult_amended.2.2.2.1 "part.stl" cubeMesh id none none none _ hok

/-- C4 counterexample: the claim asserts that a mesh that is zero-volume
after cleanup is rejected with `InvalidGeometry`, but the engine quotes a
loaded non-empty mesh with zero volume (a single degenerate triangle): the
run succeeds. -/
theorem C4_zero_volume_counterexample :
    run_quote_engine "part.stl" degenerateMesh id none none none none =
      .ok (okResult "part.stl" degenerateMesh id none none none none) ∧
    (id degenerateMesh).volume = 0 ∧ degenerateMesh.is_empty = false :=
  ⟨run_ok "part.stl" degenerateMesh id none none none none (by decide) rfl, rfl, rfl⟩

/-- C4 (amended): for every mesh that loads under an accepted extension, the
engine raises `InvalidGeometry` iff the mesh is empty as loaded — the check
runs before the cleanup pass, and zero volume is never checked. -/
theorem C4_invalid_geometry_iff (name : String) (loaded : Mesh) (cleaned : Mesh → Mesh)
    (material : Option String) (lay : Option ℚ) (inf : Option ℤ) (mach : Option String)
    (h1 : engineExt name ∈ [".stl", ".obj"]) :
    run_quote_engine name loaded cleaned material lay inf mach = .error .InvalidGeometry ↔
      loaded.is_empty = true := by
  constructor
  · intro h
    cases h2 : loaded.is_empty with
    | true => rfl
    | false => rw [run_ok _ _ _ _ _ _ _ h1 h2] at h; cases h
  · intro h2
    exact run_empty _ _ _ _ _ _ _ h1 h2

/-- C4 witness: the amended equivalence instantiated on a mesh that loaded
empty. -/
theorem C4_invalid_geometry_iff_witness :
    run_quote_engine "part.stl" emptyMesh id none none none none =
        .error .InvalidGeometry ↔
      emptyMesh.is_empty = true :=
  C4_invalid_geometry_iff "part.stl" emptyMesh id none none none none (by decide)

/-- C5: a machine key absent from `MACHINE_PROFILES` resolves to the BLENDED
profile's throughput, hourly rate and label; a material key absent from the
material tables resolves to PLA's rate, density and preset (so mass, time
and price match a PLA quote); and unknown keys never affect whether the
engine succeeds. -/
theorem C5_default_fallbacks :
    (∀ (mk : String), mk ∉ MACHINE_PROFILES.map Prod.fst →
      ∀ (name : String) (loaded : Mesh) (cleaned : Mesh → Mesh) (mat : Option String)
        (lay : Option ℚ) (inf : Option ℤ) (r : QuoteResult),
        run_quote_engine name loaded cleaned mat lay inf (some mk) = .ok r →
          r.pricing_model.machine_cm3_per_hr = BLENDED.cm3_per_hr ∧
          r.pricing_model.hourly_rate = BLENDED.hourly_rate ∧
          r.pricing_model.machine_label = BLENDED.label) ∧
    (∀ (mt : String), mt ∉ MATERIAL_RATES.map Prod.fst →
      ∀ (name : String) (loaded : Mesh) (cleaned : Mesh → Mesh) (lay : Option ℚ)
        (inf : Option ℤ) (mach : Option String) (r r2 : QuoteResult),
        run_quote_engine name loaded cleaned (some mt) lay inf mach = .ok r →
        run_quote_engine name loaded cleaned (some "PLA") lay inf mach = .ok r2 →
          r.est_material_g = r2.est_material_g ∧
          r.est_print_time_hr = r2.est_print_time_hr ∧
          r.price_usd = r2.price_usd) ∧
    (∀ (name : String) (loaded : Mesh) (cleaned : Mesh → Mesh) (lay : Option ℚ)
        (inf : Option ℤ) (mk mt : String),
      (run_quote_engine name loaded cleaned (some mt) lay inf (some mk)).isOk =
        (run_quote_engine name loaded cleaned none lay inf none).isOk) := by
  refine ⟨?_, ?_, ?_⟩
  · intro mk hm name loaded cleaned mat lay inf r h
    obtain ⟨h1, h2, rfl⟩ := ok_elim h
    by_cases hmk : mk = ""
    · subst hmk
      refine ⟨?_, ?_, ?_⟩ <;>
        simp [okResult, orStr, DEFAULT_MACHINE, lookupD, MACHINE_PROFILES, List.find?]
    · have hda : ∀ p ∈ MACHINE_PROFILES, p.1 ≠ mk :=
        fun p hp hcon => hm (List.mem_map.mpr ⟨p, hp, hcon⟩)
      simp only [okResult, orStr, if_neg hmk, lookupD_eq_default _ _ _ hda]
      refine ⟨?_, ?_, ?_⟩ <;> trivial
  · intro mt hm name loaded cleaned lay inf mach r r2 h hPLA
    obtain ⟨h1, h2, rfl⟩ := ok_elim h
    obtain ⟨h1a, h2a, rfl⟩ := ok_elim hPLA
    by_cases hmt : mt = ""
    · subst hmt
      exact ⟨rfl, rfl, rfl⟩
    · have hkeys : mt ∉ (["PLA", "PLA+", "PETG", "Nylon", "CFNylon"] : List String) := by
        simpa [MATERIAL_RATES] using hm
      have hda : ∀ p ∈ DENSITY_G_CM3, p.1 ≠ mt := by
        intro p hp
        simp [DENSITY_G_CM3] at hp
        rcases hp with rfl | rfl | rfl | rfl | rfl <;>
          (intro hcon; rw [← hcon] at hkeys; simp at hkeys)
      have hra : ∀ p ∈ MATERIAL_RATES, p.1 ≠ mt :=
        fun p hp hcon => hm (List.mem_map.mpr ⟨p, hp, hcon⟩)
      have hpa : ∀ p ∈ MATERIAL_PRESETS, p.1 ≠ mt := by
        intro p hp
        simp [MATERIAL_PRESETS] at hp
        rcases hp with rfl | rfl | rfl | rfl | rfl <;>
          (intro hcon; rw [← hcon] at hkeys; simp at hkeys)
      have e1 : lookupD DENSITY_G_CM3 (orStr (some mt) DEFAULT_MATERIAL)
          (lookupD DENSITY_G_CM3 "PLA" 0) =
          lookupD DENSITY_G_CM3 (orStr (some "PLA") DEFAULT_MATERIAL)
            (lookupD DENSITY_G_CM3 "PLA" 0) := by
        rw [show orStr (some mt) DEFAULT_MATERIAL = mt from if_neg hmt,
          lookupD_eq_default _ _ _ hda]
        simp [lookupD, DENSITY_G_CM3, List.find?, orStr, DEFAULT_MATERIAL]
      have e2 : lookupD MATERIAL_RATES (orStr (some mt) DEFAULT_MATERIAL)
          (lookupD MATERIAL_RATES "PLA" 0) =
          lookupD MATERIAL_RATES (orStr (some "PLA") DEFAULT_MATERIAL)
            (lookupD MATERIAL_RATES "PLA" 0) := by
        rw [show orStr (some mt) DEFAULT_MATERIAL = mt from if_neg hmt,
          lookupD_eq_default _ _ _ hra]
        simp [lookupD, MATERIAL_RATES, List.find?, orStr, DEFAULT_MATERIAL]
      have e3 : lookupD MATERIAL_PRESETS (orStr (some mt) DEFAULT_MATERIAL)
          (lookupD MATERIAL_PRESETS "PLA" ⟨0, 0⟩) =
          lookupD MATERIAL_PRESETS (orStr (some "PLA") DEFAULT_MATERIAL)
            (lookupD MATERIAL_PRESETS "PLA" ⟨0, 0⟩) := by
        rw [show orStr (some mt) DEFAULT_MATERIAL = mt from if_neg hmt,
          lookupD_eq_default _ _ _ hpa]
        simp [lookupD, MATERIAL_PRESETS, List.find?, orStr, DEFAULT_MATERIAL]
      refine ⟨?_, ?_, ?_⟩ <;> simp only [okResult, e1, e2, e3]
  · intro name loaded cleaned lay inf mk mt
    by_cases hext : engineExt name ∈ [".stl", ".obj"]
    · cases h2 : loaded.is_empty with
      | true =>
        rw [run_empty _ _ _ _ _ _ _ hext h2, run_empty _ _ _ _ _ _ _ hext h2]
      | false =>
        rw [run_ok _ _ _ _ _ _ _ hext h2, run_ok _ _ _ _ _ _ _ hext h2]
        rfl
    · rw [run_unsupported _ _ _ _ _ _ _ hext, run_unsupported _ _ _ _ _ _ _ hext]

/-- C5 witness: the machine fallback applied to the unknown key
`"GenericPrinter"`. -/
theorem C5_default_fallbacks_witness :
    ("GenericPrinter" : String) ∉ MACHINE_PROFILES.map Prod.fst ∧
    ((okResult "part.stl" cubeMesh id none none none
        (some "GenericPrinter")).pricing_model.machine_cm3_per_hr = BLENDED.cm3_per_hr ∧
      (okResult "part.stl" cubeMesh id none none none
        (some "GenericPrinter")).pricing_model.hourly_rate = BLENDED.hourly_rate ∧
      (okResult "part.stl" cubeMesh id none none none
        (some "GenericPrinter")).pricing_model.machine_label = BLENDED.label) := by
  have hnm : ("GenericPrinter" : String) ∉ MACHINE_PROFILES.map Prod.fst := by decide
  have hok := run_ok "part.stl" cubeMesh id none none none (some "GenericPrinter")
    (by decide) rfl
  exact ⟨hnm, C5_default_fallbacks.1 "GenericPrinter" hnm "part.stl" cubeMesh id
    none none none _ hok⟩

/-- C9: a filename whose extension is not stl or obj is rejected with the
unsupported-format error before any geometry parsing: the upload validator
rejects it for every size, and the engine returns `UnsupportedFormat` for
every mesh and parameter set — the outcome is independent of the file's
contents. -/
theorem C9_unsupported_extension (name : String)
    (h1 : engineExt name ∉ [".stl", ".obj"])
    (h2 : serializerExt name ∉ ALLOWED_EXTS) :
    (∀ size, validate_file name size = false) ∧
    (∀ (loaded : Mesh) (cleaned : Mesh → Mesh) (mat : Option String) (lay : Option ℚ)
        (inf : Option ℤ) (mach : Option String),
      run_quote_engine name loaded cleaned mat lay inf mach =
        .error .UnsupportedFormat) := by
  constructor
  · intro size
    unfold validate_file
    rw [if_pos h2]
  · intro loaded cleaned mat lay inf mach
    exact run_unsupported _ _ _ _ _ _ _ h1

/-- C9 witness: a `.png` upload is rejected by the validator and by the
engine, on an arbitrary concrete mesh. -/
theorem C9_unsupported_extension_witness :
    validate_file "part.png" none = false ∧
    run_quote_engine "part.png" cubeMesh id none none none none =
      .error .UnsupportedFormat := by
  have h := C9_unsupported_extension "part.png" (by decide) (by decide)
  exact ⟨h.1 none, h.2 cubeMesh id none none none none⟩

end QuoteApi
